import Mathlib

/-!
Shallow embedding of the real-time chat core in `src/main.py` (Flask-SocketIO
application): the module-level registries `user_room_map` and
`typing_users_in_rooms`, the `Message`/`User` database rows, and the SocketIO
handlers `on_join`, `handle_disconnect`, `handle_message`,
`handle_start_typing`, `handle_stop_typing`.

Modelling conventions:
- Python dicts are association lists (`alistGet`/`alistSet`/`alistRemove`
  mirror `d.get(k)`, `d[k] = v`, `d.pop(k, None)`).
- `session.get(key)` values are `Option String`; Python truthiness of such a
  value (`all([...])`) is `truthy`.
- A UTC datetime is a `Nat` of seconds since the epoch; `strftime` of
  `%H:%M:%S` is `formatHMS`.
- A handler is a pure function from the shared state (plus its event payload
  and the session of the triggering connection) to the new state and the list
  of emitted SocketIO events, in emission order.  The outcome of
  `db.session.commit()` is an explicit `commitOk : Bool` parameter; the
  database-assigned message id and the server clock are the `nextId`/`now`
  parameters.
-/

set_option maxRecDepth 100000

namespace WebChat

/-- Python `str.strip()`: drop whitespace from both ends of the string. -/
def pyStrip (s : String) : String :=
  String.mk (((s.data.dropWhile Char.isWhitespace).reverse.dropWhile Char.isWhitespace).reverse)

/-- Python `s[:n]`: the first `n` code points of `s`. -/
def pyTake (s : String) (n : Nat) : String :=
  String.mk (s.data.take n)

/-- Python truthiness of a value obtained from `session.get(...)` or
`data.get(...)`: `None` and the empty string are falsy. -/
def truthy : Option String → Bool
  | none => false
  | some s => !s.isEmpty

/-- Python `f"{x}"` rendering of a possibly-`None` string. -/
def pyStr : Option String → String
  | none => "None"
  | some s => s

/-- `d.get(k)` on an association list standing for a Python dict. -/
def alistGet {V : Type} (k : String) : List (String × V) → Option V
  | [] => none
  | (k', v) :: rest => if k' = k then some v else alistGet k rest

/-- `d[k] = v` on an association list standing for a Python dict. -/
def alistSet {V : Type} (k : String) (v : V) : List (String × V) → List (String × V)
  | [] => [(k, v)]
  | (k', v') :: rest => if k' = k then (k, v) :: rest else (k', v') :: alistSet k v rest

/-- `d.pop(k, None)` on an association list standing for a Python dict. -/
def alistRemove {V : Type} (k : String) : List (String × V) → List (String × V)
  | [] => []
  | (k', v') :: rest => if k' = k then alistRemove k rest else (k', v') :: alistRemove k rest

/-- A row of the `users` table (the columns the chat core reads). -/
structure UserRow where
  id : String
  name : String
  unique_name : Option String
deriving DecidableEq, Repr

/-- A row of the `messages` table.  `timestamp` is the server-assigned UTC
creation datetime, as seconds since the epoch. -/
structure MessageRow where
  id : Nat
  room_name : String
  user_id : String
  content : String
  timestamp : Nat
deriving DecidableEq, Repr

/-- Two-digit zero-padded decimal rendering, as `strftime` uses for
`%H`, `%M` and `%S`. -/
def pad2 (n : Nat) : String :=
  if n < 10 then "0" ++ toString n else toString n

/-- `dt.strftime("%H:%M:%S")` on a UTC datetime given as seconds since the
epoch: only the time of day survives. -/
def formatHMS (t : Nat) : String :=
  pad2 (t / 3600 % 24) ++ ":" ++ pad2 (t / 60 % 60) ++ ":" ++ pad2 (t % 60)

/-- The wire payload of one message (`Message.to_dict`). -/
structure MsgDict where
  user_id : String
  user_name : String
  content : String
  timestamp : String
deriving DecidableEq, Repr

/-- `Message.to_dict`: `user_name` is `author.unique_name or author.name`
(Python `or`: the second operand when the first is falsy), and `timestamp` is
the `%H:%M:%S` rendering of the stored UTC datetime. -/
def MessageRow.to_dict (m : MessageRow) (author : UserRow) : MsgDict :=
  { user_id := m.user_id
    user_name :=
      match author.unique_name with
      | some u => if u.isEmpty then author.name else u
      | none => author.name
    content := m.content
    timestamp := formatHMS m.timestamp }

/-- One outbound SocketIO emission.  Targets mirror the calls in the source:
`error_message` and `message_history` are emitted without a `room` argument,
so they go to the triggering connection (the sender) only; `new_message` is
emitted via `socketio.emit(..., room=...)`, reaching every connection in the
room including the sender; `status_message` and `typing_status` carry the
room and the `include_self` flag of the call (`include_self = false` means
the sender is excluded). -/
inductive OutEvent where
  | error_message (msg : String)
  | status_message (msg : String) (room : String) (include_self : Bool)
  | message_history (history : List MsgDict) (user_name : String)
  | new_message (data : MsgDict) (room : String)
  | typing_status (user_id : String) (user_name : Option String)
      (is_typing : Bool) (room : String) (include_self : Bool)
deriving DecidableEq, Repr

/-- The shared mutable state of the server: the two module-level dicts plus
the two database tables the handlers touch. -/
structure ChatState where
  user_room_map : List (String × String)
  typing_users_in_rooms : List (String × List (String × Option String))
  users : List UserRow
  messages : List MessageRow
deriving DecidableEq, Repr

/-- The Flask session of the triggering connection.  `connection_id` is the
transport sid; the handlers in the source never consult it — identity is
`session["user_id"]`/`session["user_name"]`. -/
structure Session where
  connection_id : String
  user_id : Option String
  user_name : Option String
deriving DecidableEq, Repr

/-- `user_room_map.get(session.get("user_id"))`: the room the triggering
connection's user is bound to, if any (`dict.get(None)` is `None`). -/
def sessionRoom (st : ChatState) (sess : Session) : Option String :=
  match sess.user_id with
  | none => none
  | some uid => alistGet uid st.user_room_map

/-- Descending-timestamp order used by `order_by(Message.timestamp.desc())`. -/
def tsDesc (a b : MessageRow) : Prop :=
  b.timestamp ≤ a.timestamp

instance : DecidableRel tsDesc := fun a b => Nat.decLe b.timestamp a.timestamp

instance : IsTotal MessageRow tsDesc :=
  ⟨fun a b => Nat.le_total b.timestamp a.timestamp⟩

instance : IsTrans MessageRow tsDesc :=
  ⟨fun _ _ _ h1 h2 => le_trans h2 h1⟩

/-- The history query in `on_join`:
`Message.query.filter_by(room_name=...).order_by(timestamp.desc()).limit(50).all()`
followed by `messages.reverse()`. -/
def load_recent (msgs : List MessageRow) (room : String) : List MessageRow :=
  (((List.insertionSort tsDesc (msgs.filter (fun m => m.room_name = room)))).take 50).reverse

/-- `msg.author` resolved through the `user_id` foreign key.  The source
assumes the author row exists (it dereferences `self.author` directly); a
missing row is given a placeholder so the model stays total. -/
def authorOf (users : List UserRow) (uid : String) : UserRow :=
  match users.find? (fun u => u.id = uid) with
  | some u => u
  | none => { id := uid, name := "", unique_name := none }

/-- The `history` list built in `on_join`: `[msg.to_dict() for msg in messages]`. -/
def historyDicts (st : ChatState) (room : String) : List MsgDict :=
  (load_recent st.messages room).map (fun m => m.to_dict (authorOf st.users m.user_id))

/-- The `join` handler (`on_join` in the source). -/
def on_join (st : ChatState) (sess : Session) (dataRoom : Option String) :
    ChatState × List OutEvent :=
  if !(truthy sess.user_id && truthy sess.user_name && truthy dataRoom) then
    (st, [.error_message "Не удалось присоединиться к комнате: отсутствует ID или имя."])
  else
    let uid := sess.user_id.getD ""
    let uname := sess.user_name.getD ""
    let room := dataRoom.getD ""
    let leftEvents : List OutEvent :=
      match alistGet uid st.user_room_map with
      | some old => if old ≠ room then
          [.status_message (uname ++ " покинул комнату.") old true]
        else []
      | none => []
    let st' := { st with user_room_map := alistSet uid room st.user_room_map }
    (st',
      leftEvents ++
      [.status_message (uname ++ " присоединился к комнате.") room false,
       .message_history (historyDicts st room) uname])

/-- The `disconnect` handler (`handle_disconnect` in the source). -/
def handle_disconnect (st : ChatState) (sess : Session) :
    ChatState × List OutEvent :=
  match sess.user_id with
  | none => (st, [])
  | some uid =>
    match alistGet uid st.user_room_map with
    | none => (st, [])
    | some room =>
      let st1 := { st with user_room_map := alistRemove uid st.user_room_map }
      let roomTyping := alistGet room st.typing_users_in_rooms
      let wasTyping :=
        match roomTyping with
        | some m => (alistGet uid m).isSome
        | none => false
      let st2 :=
        if wasTyping then
          { st1 with typing_users_in_rooms :=
              alistSet room (alistRemove uid (roomTyping.getD [])) st.typing_users_in_rooms }
        else st1
      let typingEvents : List OutEvent :=
        if wasTyping then
          [.typing_status uid sess.user_name false room false]
        else []
      (st2,
        typingEvents ++
        [.status_message (pyStr sess.user_name ++ " покинул комнату " ++ room ++ ".") room true])

/-- The `send_message` handler (`handle_message` in the source).
`commitOk` is the outcome of `db.session.commit()`; `nextId` the id the
database would assign; `now` the server clock at `datetime.now(timezone.utc)`. -/
def handle_message (st : ChatState) (sess : Session) (dataContent : Option String)
    (commitOk : Bool) (nextId : Nat) (now : Nat) : ChatState × List OutEvent :=
  let room_name := sessionRoom st sess
  let content := pyStrip (dataContent.getD "")
  if !(truthy sess.user_id && truthy room_name && !content.isEmpty && truthy sess.user_name) then
    (st, [.error_message "Сообщение пустое или произошла ошибка сессии."])
  else
    let uid := sess.user_id.getD ""
    let room := room_name.getD ""
    let limitErrs : List OutEvent :=
      if 500 < content.length then
        [.error_message "Сообщение превышает лимит в 500 символов."]
      else []
    let content := if 500 < content.length then pyTake content 500 else content
    match st.users.find? (fun u => u.id = uid) with
    | none => (st, limitErrs ++ [.error_message "Пользователь не найден в базе данных."])
    | some user =>
      let msg : MessageRow :=
        { id := nextId, room_name := room, user_id := uid, content := content, timestamp := now }
      if commitOk then
        ({ st with messages := st.messages ++ [msg] },
         limitErrs ++ [.new_message (msg.to_dict user) room])
      else
        (st, limitErrs ++ [.error_message "Ошибка сервера при сохранении сообщения."])

/-- The `start_typing` handler (`handle_start_typing` in the source). -/
def handle_start_typing (st : ChatState) (sess : Session) :
    ChatState × List OutEvent :=
  let room_name := sessionRoom st sess
  if !(truthy sess.user_id && truthy room_name) then (st, [])
  else
    let uid := sess.user_id.getD ""
    let room := room_name.getD ""
    let roomTyping := (alistGet room st.typing_users_in_rooms).getD []
    ({ st with typing_users_in_rooms :=
        alistSet room (alistSet uid sess.user_name roomTyping) st.typing_users_in_rooms },
     [.typing_status uid sess.user_name true room false])

/-- The `stop_typing` handler (`handle_stop_typing` in the source).  The final
emission reads `session["user_name"]` by indexing: when that key is absent the
handler raises after the removal and nothing is emitted. -/
def handle_stop_typing (st : ChatState) (sess : Session) :
    ChatState × List OutEvent :=
  let room_name := sessionRoom st sess
  if !(truthy sess.user_id && truthy room_name) then (st, [])
  else
    let uid := sess.user_id.getD ""
    let room := room_name.getD ""
    let typing' :=
      match alistGet room st.typing_users_in_rooms with
      | some m =>
        if (alistGet uid m).isSome then
          alistSet room (alistRemove uid m) st.typing_users_in_rooms
        else st.typing_users_in_rooms
      | none => st.typing_users_in_rooms
    let st' := { st with typing_users_in_rooms := typing' }
    match sess.user_name with
    | none => (st', [])
    | some uname => (st', [.typing_status uid (some uname) false room false])

/-! ## Resolution of a connection -/

/-- The triggering connection resolves: the session carries a truthy user id
and user name, and `user_room_map` binds that user to a truthy room. -/
structure Resolved (st : ChatState) (sess : Session)
    (uid uname room : String) : Prop where
  huid : sess.user_id = some uid
  huid_ne : uid ≠ ""
  hname : sess.user_name = some uname
  hname_ne : uname ≠ ""
  hroom : alistGet uid st.user_room_map = some room
  hroom_ne : room ≠ ""

/-! ## Concrete fixtures used by witnesses and counterexamples -/

/-- A registered user, as `login` would create it. -/
def bobRow : UserRow := { id := "u1", name := "Bob", unique_name := some "bob" }

/-- A state in which Bob is bound to room `general`, is not typing, and the
message table is empty. -/
def stBase : ChatState :=
  { user_room_map := [("u1", "general")]
    typing_users_in_rooms := []
    users := [bobRow]
    messages := [] }

/-- Bob's session on connection `c1`. -/
def sessBob : Session :=
  { connection_id := "c1", user_id := some "u1", user_name := some "Bob" }

/-- A 501-character message body. -/
def longContent : String := String.mk (List.replicate 501 'a')

/-- The base state with Bob's room binding already removed, as disconnect
cleanup leaves it. -/
def stNoRoom : ChatState := { stBase with user_room_map := [] }

/-- The base state with Bob present in `general`'s typing set. -/
def stTyping : ChatState :=
  { stBase with typing_users_in_rooms := [("general", [("u1", some "Bob")])] }

/-- Recogniser for `message_history` emissions. -/
def isHistoryEvent : OutEvent → Bool
  | OutEvent.message_history _ _ => true
  | _ => false

/-- Two persisted messages in `general`, newest first in the table. -/
def msgsTwo : List MessageRow :=
  [{ id := 2, room_name := "general", user_id := "u1", content := "second", timestamp := 10 },
   { id := 1, room_name := "general", user_id := "u1", content := "first", timestamp := 5 }]

/-! ## Basic lemmas about the dict model -/

theorem isEmpty_false_of_ne {s : String} (h : s ≠ "") : s.isEmpty = false := by
  cases hb : s.isEmpty
  · rfl
  · exact absurd ((String.isEmpty_iff s).mp hb) h

theorem alistGet_set_self {V : Type} (k : String) (v : V) (m : List (String × V)) :
    alistGet k (alistSet k v m) = some v := by
  induction m with
  | nil => simp [alistGet, alistSet]
  | cons p rest ih =>
    obtain ⟨k', v'⟩ := p
    by_cases h : k' = k
    · simp [alistGet, alistSet, h]
    · simp [alistGet, alistSet, h, ih]

theorem alistGet_remove_self {V : Type} (k : String) (m : List (String × V)) :
    alistGet k (alistRemove k m) = none := by
  induction m with
  | nil => simp [alistGet, alistRemove]
  | cons p rest ih =>
    obtain ⟨k', v'⟩ := p
    by_cases h : k' = k
    · simp [alistRemove, h, ih]
    · simp [alistRemove, alistGet, h, ih]

theorem alistGet_set_of_get {V : Type} {k : String} {v : V} {m : List (String × V)}
    (h : alistGet k m = some v) (k' : String) :
    alistGet k' (alistSet k v m) = alistGet k' m := by
  induction m with
  | nil => simp [alistGet] at h
  | cons p rest ih =>
    obtain ⟨k0, v0⟩ := p
    by_cases hk : k0 = k
    · subst hk
      simp [alistGet] at h
      subst h
      simp [alistSet]
    · simp [alistGet, hk] at h
      simp [alistSet, alistGet, hk, ih h]

theorem resolvedBase : Resolved stBase sessBob "u1" "Bob" "general" :=
  ⟨rfl, by decide, rfl, by decide, by decide, by decide⟩

theorem findBob : stBase.users.find? (fun u => u.id = "u1") = some bobRow := by decide

/-! ## Reduction lemmas for the handlers on a resolved connection -/

/-- `handle_message` on a resolved connection with valid (nonempty, within
limit) trimmed content: commit decides everything. -/
theorem handle_message_resolved
    (st : ChatState) (sess : Session) (uid uname room : String) (user : UserRow)
    (c : String) (ok : Bool) (nextId now : Nat)
    (h : Resolved st sess uid uname room)
    (huser : st.users.find? (fun u => u.id = uid) = some user)
    (hne : pyStrip c ≠ "") (hlen : (pyStrip c).length ≤ 500) :
    handle_message st sess (some c) ok nextId now =
      (if ok then
        ({ st with messages := st.messages ++
            [{ id := nextId, room_name := room, user_id := uid,
               content := pyStrip c, timestamp := now }] },
         [OutEvent.new_message
            (MessageRow.to_dict
              { id := nextId, room_name := room, user_id := uid,
                content := pyStrip c, timestamp := now } user) room])
      else
        (st, [OutEvent.error_message "Ошибка сервера при сохранении сообщения."])) := by
  have h500 : ¬ (500 < (pyStrip c).length) := Nat.not_lt.mpr hlen
  simp [handle_message, sessionRoom, h.huid, h.hname, h.hroom, truthy,
    isEmpty_false_of_ne h.huid_ne, isEmpty_false_of_ne h.hname_ne,
    isEmpty_false_of_ne h.hroom_ne, isEmpty_false_of_ne hne, h500, huser]

/-- `handle_message` on a resolved connection with oversized trimmed content:
the sender is warned, the content is truncated, and the truncated message is
still persisted and broadcast when the commit succeeds. -/
theorem handle_message_oversized
    (st : ChatState) (sess : Session) (uid uname room : String) (user : UserRow)
    (c : String) (ok : Bool) (nextId now : Nat)
    (h : Resolved st sess uid uname room)
    (huser : st.users.find? (fun u => u.id = uid) = some user)
    (hover : 500 < (pyStrip c).length) :
    handle_message st sess (some c) ok nextId now =
      (if ok then
        ({ st with messages := st.messages ++
            [{ id := nextId, room_name := room, user_id := uid,
               content := pyTake (pyStrip c) 500, timestamp := now }] },
         [OutEvent.error_message "Сообщение превышает лимит в 500 символов.",
          OutEvent.new_message
            (MessageRow.to_dict
              { id := nextId, room_name := room, user_id := uid,
                content := pyTake (pyStrip c) 500, timestamp := now } user) room])
      else
        (st, [OutEvent.error_message "Сообщение превышает лимит в 500 символов.",
              OutEvent.error_message "Ошибка сервера при сохранении сообщения."])) := by
  have hne : pyStrip c ≠ "" := by
    intro he
    rw [he] at hover
    simp at hover
  simp [handle_message, sessionRoom, h.huid, h.hname, h.hroom, truthy,
    isEmpty_false_of_ne h.huid_ne, isEmpty_false_of_ne h.hname_ne,
    isEmpty_false_of_ne h.hroom_ne, isEmpty_false_of_ne hne, hover, huser]

/-! ## Claim C1 -/

/-- C1, counterexample: sending 501 characters of trimmed content from a
resolved connection is NOT rejected: a `Message` row (truncated to 500
characters) is persisted, a `new_message` broadcast is emitted to the room,
and the content is altered — refuting "no Message row is persisted, no
new_message broadcast occurs" and "the content is never silently altered". -/
theorem C1_oversize_not_rejected :
    (handle_message stBase sessBob (some longContent) true 1 0).1.messages =
      [{ id := 1, room_name := "general", user_id := "u1",
         content := String.mk (List.replicate 500 'a'), timestamp := 0 }]
  ∧ OutEvent.new_message
      { user_id := "u1", user_name := "bob",
        content := String.mk (List.replicate 500 'a'), timestamp := "00:00:00" }
      "general"
      ∈ (handle_message stBase sessBob (some longContent) true 1 0).2 :=
  ⟨by decide, by decide⟩

/-- C1 (amended): for every send_message event whose trimmed content exceeds
500 characters, the sender receives an `error_message`, but the send is NOT
rejected: the content is truncated to its first 500 characters and the
truncated message is persisted and broadcast as `new_message` (commit
permitting); content of exactly 500 characters is accepted unchanged. -/
theorem C1_amended_truncate_and_accept
    (st : ChatState) (sess : Session) (uid uname room : String) (user : UserRow)
    (c : String) (nextId now : Nat)
    (h : Resolved st sess uid uname room)
    (huser : st.users.find? (fun u => u.id = uid) = some user)
    (hover : 500 < (pyStrip c).length) :
    handle_message st sess (some c) true nextId now =
      ({ st with messages := st.messages ++
          [{ id := nextId, room_name := room, user_id := uid,
             content := pyTake (pyStrip c) 500, timestamp := now }] },
       [OutEvent.error_message "Сообщение превышает лимит в 500 символов.",
        OutEvent.new_message
          (MessageRow.to_dict
            { id := nextId, room_name := room, user_id := uid,
              content := pyTake (pyStrip c) 500, timestamp := now } user) room])
  ∧ (pyTake (pyStrip c) 500).length = 500
  ∧ (∀ c2 : String, pyStrip c2 ≠ "" → (pyStrip c2).length = 500 →
      handle_message st sess (some c2) true nextId now =
        ({ st with messages := st.messages ++
            [{ id := nextId, room_name := room, user_id := uid,
               content := pyStrip c2, timestamp := now }] },
         [OutEvent.new_message
            (MessageRow.to_dict
              { id := nextId, room_name := room, user_id := uid,
                content := pyStrip c2, timestamp := now } user) room])) := by
  refine ⟨?_, ?_, ?_⟩
  · simpa using handle_message_oversized st sess uid uname room user c true nextId now h huser hover
  · have hd : (pyStrip c).length = (pyStrip c).data.length := rfl
    simp only [pyTake, hd] at hover ⊢
    simp [List.length_take]
    omega
  · intro c2 hne2 hlen2
    simpa using handle_message_resolved st sess uid uname room user c2 true nextId now h huser hne2
      (le_of_eq hlen2)

/-- C1 witness: the amended behaviour at a concrete oversized input. -/
theorem C1_amended_truncate_and_accept_witness :
    handle_message stBase sessBob (some longContent) true 1 0 =
      ({ stBase with messages := stBase.messages ++
          [{ id := 1, room_name := "general", user_id := "u1",
             content := pyTake (pyStrip longContent) 500, timestamp := 0 }] },
       [OutEvent.error_message "Сообщение превышает лимит в 500 символов.",
        OutEvent.new_message
          (MessageRow.to_dict
            { id := 1, room_name := "general", user_id := "u1",
              content := pyTake (pyStrip longContent) 500, timestamp := 0 } bobRow) "general"]) :=
  (C1_amended_truncate_and_accept stBase sessBob "u1" "Bob" "general" bobRow longContent 1 0
    resolvedBase findBob (by decide)).1

/-! ## Claim C2 -/

/-- C2: for every send_message event from a resolved connection with valid
content, the `new_message` broadcast is emitted if and only if the database
commit succeeded.  On commit failure the state (including the message table)
is unchanged and the only emission is a sender-only `error_message`; on
success exactly one `new_message` is emitted to the room (which, per the
`socketio.emit(..., room=...)` call, includes the sender) carrying the
persisted row, which is appended to the message table. -/
theorem C2_broadcast_iff_commit
    (st : ChatState) (sess : Session) (uid uname room : String) (user : UserRow)
    (c : String) (ok : Bool) (nextId now : Nat)
    (h : Resolved st sess uid uname room)
    (huser : st.users.find? (fun u => u.id = uid) = some user)
    (hne : pyStrip c ≠ "") (hlen : (pyStrip c).length ≤ 500) :
    (ok = true →
      handle_message st sess (some c) ok nextId now =
        ({ st with messages := st.messages ++
            [{ id := nextId, room_name := room, user_id := uid,
               content := pyStrip c, timestamp := now }] },
         [OutEvent.new_message
            (MessageRow.to_dict
              { id := nextId, room_name := room, user_id := uid,
                content := pyStrip c, timestamp := now } user) room]))
  ∧ (ok = false →
      handle_message st sess (some c) ok nextId now =
        (st, [OutEvent.error_message "Ошибка сервера при сохранении сообщения."])) := by
  have hr := handle_message_resolved st sess uid uname room user c ok nextId now h huser hne hlen
  constructor
  · intro hok
    subst hok
    simpa using hr
  · intro hok
    subst hok
    simpa using hr

/-- C2 witness: both commit outcomes at a concrete input. -/
theorem C2_broadcast_iff_commit_witness :
    handle_message stBase sessBob (some "hi") true 1 0 =
      ({ stBase with messages := stBase.messages ++
          [{ id := 1, room_name := "general", user_id := "u1",
             content := pyStrip "hi", timestamp := 0 }] },
       [OutEvent.new_message
          (MessageRow.to_dict
            { id := 1, room_name := "general", user_id := "u1",
              content := pyStrip "hi", timestamp := 0 } bobRow) "general"])
  ∧ handle_message stBase sessBob (some "hi") false 1 0 =
      (stBase, [OutEvent.error_message "Ошибка сервера при сохранении сообщения."]) :=
  ⟨(C2_broadcast_iff_commit stBase sessBob "u1" "Bob" "general" bobRow "hi" true 1 0
      resolvedBase findBob (by decide) (by decide)).1 rfl,
   (C2_broadcast_iff_commit stBase sessBob "u1" "Bob" "general" bobRow "hi" false 1 0
      resolvedBase findBob (by decide) (by decide)).2 rfl⟩

/-! ## Claim C3 -/

/-- C3, counterexample: a `send_message` on a connection whose room binding
has been removed (as after disconnect cleanup) is NOT a silent no-op — the
sender receives an `error_message`, refuting "no message of any kind — not
even to the sender — is produced". -/
theorem C3_unresolved_send_not_silent :
    (handle_message stNoRoom sessBob (some "hello") true 1 0).2
      = [OutEvent.error_message "Сообщение пустое или произошла ошибка сессии."] := by
  decide

/-- C3 (amended): an event on a connection whose identity or room cannot be
resolved causes no broadcast, no persistence and no state change; but only
`start_typing`, `stop_typing` and `disconnect` are fully silent —
`send_message` (and a `join` with no room) answer the sender, and only the
sender, with an `error_message`. -/
theorem C3_amended_unresolved_drops
    (st : ChatState) (sess : Session) (dc dr : Option String) (ok : Bool) (nid now : Nat)
    (h : (truthy sess.user_id && truthy (sessionRoom st sess)) = false) :
    handle_message st sess dc ok nid now =
      (st, [OutEvent.error_message "Сообщение пустое или произошла ошибка сессии."])
  ∧ handle_start_typing st sess = (st, [])
  ∧ handle_stop_typing st sess = (st, [])
  ∧ (sessionRoom st sess = none → handle_disconnect st sess = (st, []))
  ∧ (truthy dr = false →
      on_join st sess dr =
        (st, [OutEvent.error_message "Не удалось присоединиться к комнате: отсутствует ID или имя."])) := by
  refine ⟨?_, ?_, ?_, ?_, ?_⟩
  · cases hA : truthy sess.user_id <;> cases hB : truthy (sessionRoom st sess) <;>
      simp [hA, hB] at h ⊢ <;> simp [handle_message, hA, hB]
  · cases hA : truthy sess.user_id <;> cases hB : truthy (sessionRoom st sess) <;>
      simp [hA, hB] at h ⊢ <;> simp [handle_start_typing, hA, hB]
  · cases hA : truthy sess.user_id <;> cases hB : truthy (sessionRoom st sess) <;>
      simp [hA, hB] at h ⊢ <;> simp [handle_stop_typing, hA, hB]
  · intro hnone
    cases hu : sess.user_id with
    | none => simp [handle_disconnect, hu]
    | some uid =>
      simp [sessionRoom, hu] at hnone
      simp [handle_disconnect, hu, hnone]
  · intro hdr
    simp [on_join, hdr]

/-- C3 witness: the amended behaviour at the concrete post-disconnect state. -/
theorem C3_amended_unresolved_drops_witness :
    handle_message stNoRoom sessBob (some "hello") true 1 0 =
      (stNoRoom, [OutEvent.error_message "Сообщение пустое или произошла ошибка сессии."])
  ∧ handle_start_typing stNoRoom sessBob = (stNoRoom, [])
  ∧ handle_disconnect stNoRoom sessBob = (stNoRoom, []) :=
  ⟨(C3_amended_unresolved_drops stNoRoom sessBob (some "hello") none true 1 0 (by decide)).1,
   (C3_amended_unresolved_drops stNoRoom sessBob (some "hello") none true 1 0 (by decide)).2.1,
   (C3_amended_unresolved_drops stNoRoom sessBob (some "hello") none true 1 0
      (by decide)).2.2.2.1 (by decide)⟩

/-! ## Reduction lemmas for `on_join` on a resolved connection -/

/-- `on_join` to a different room than the current binding. -/
theorem on_join_switch
    (st : ChatState) (sess : Session) (uid uname A B : String)
    (h : Resolved st sess uid uname A) (hB : B ≠ "") (hAB : A ≠ B) :
    on_join st sess (some B) =
      ({ st with user_room_map := alistSet uid B st.user_room_map },
       [OutEvent.status_message (uname ++ " покинул комнату.") A true,
        OutEvent.status_message (uname ++ " присоединился к комнате.") B false,
        OutEvent.message_history (historyDicts st B) uname]) := by
  simp [on_join, h.huid, h.hname, h.hroom, truthy,
    isEmpty_false_of_ne h.huid_ne, isEmpty_false_of_ne h.hname_ne,
    isEmpty_false_of_ne hB, hAB]

/-- `on_join` to the room the user is already bound to. -/
theorem on_join_same
    (st : ChatState) (sess : Session) (uid uname R : String)
    (h : Resolved st sess uid uname R) :
    on_join st sess (some R) =
      ({ st with user_room_map := alistSet uid R st.user_room_map },
       [OutEvent.status_message (uname ++ " присоединился к комнате.") R false,
        OutEvent.message_history (historyDicts st R) uname]) := by
  simp [on_join, h.huid, h.hname, h.hroom, truthy,
    isEmpty_false_of_ne h.huid_ne, isEmpty_false_of_ne h.hname_ne,
    isEmpty_false_of_ne h.hroom_ne]

/-! ## Claim C4 -/

/-- C4: a join to room `B` by a connection bound to a different room `A`
emits exactly one "left" status broadcast to `A`, then exactly one "joined"
status broadcast to `B` (excluding the sender), then the history unicast —
in that order and nothing else — and afterwards `user_room_map` binds the
user to `B`. -/
theorem C4_room_switch
    (st : ChatState) (sess : Session) (uid uname A B : String)
    (h : Resolved st sess uid uname A) (hB : B ≠ "") (hAB : A ≠ B) :
    on_join st sess (some B) =
      ({ st with user_room_map := alistSet uid B st.user_room_map },
       [OutEvent.status_message (uname ++ " покинул комнату.") A true,
        OutEvent.status_message (uname ++ " присоединился к комнате.") B false,
        OutEvent.message_history (historyDicts st B) uname])
  ∧ alistGet uid (alistSet uid B st.user_room_map) = some B :=
  ⟨on_join_switch st sess uid uname A B h hB hAB,
   alistGet_set_self uid B st.user_room_map⟩

/-- C4 witness: Bob, bound to `general`, joins `lobby`. -/
theorem C4_room_switch_witness :
    on_join stBase sessBob (some "lobby") =
      ({ stBase with user_room_map := alistSet "u1" "lobby" stBase.user_room_map },
       [OutEvent.status_message "Bob покинул комнату." "general" true,
        OutEvent.status_message "Bob присоединился к комнате." "lobby" false,
        OutEvent.message_history (historyDicts stBase "lobby") "Bob"])
  ∧ alistGet "u1" (alistSet "u1" "lobby" stBase.user_room_map) = some "lobby" :=
  C4_room_switch stBase sessBob "u1" "Bob" "general" "lobby" resolvedBase
    (by decide) (by decide)

/-! ## Claim C5 -/

/-- C5, counterexample: a join naming the room the connection is already
bound to is NOT a no-op — the "joined" status broadcast is emitted to the
room again, refuting "no duplicate joined broadcast". -/
theorem C5_rejoin_rebroadcasts :
    OutEvent.status_message "Bob присоединился к комнате." "general" false
      ∈ (on_join stBase sessBob (some "general")).2 := by
  decide

/-- C5 (amended): a join naming the current room emits no "left" broadcast
and leaves every room binding unchanged, but it is not a full no-op: the
"joined" status broadcast is emitted to the room again and the history is
re-sent to the sender. -/
theorem C5_amended_rejoin
    (st : ChatState) (sess : Session) (uid uname R : String)
    (h : Resolved st sess uid uname R) :
    on_join st sess (some R) =
      ({ st with user_room_map := alistSet uid R st.user_room_map },
       [OutEvent.status_message (uname ++ " присоединился к комнате.") R false,
        OutEvent.message_history (historyDicts st R) uname])
  ∧ (∀ k, alistGet k (alistSet uid R st.user_room_map) = alistGet k st.user_room_map) :=
  ⟨on_join_same st sess uid uname R h, alistGet_set_of_get h.hroom⟩

/-- C5 witness: Bob re-joins `general`. -/
theorem C5_amended_rejoin_witness :
    on_join stBase sessBob (some "general") =
      ({ stBase with user_room_map := alistSet "u1" "general" stBase.user_room_map },
       [OutEvent.status_message "Bob присоединился к комнате." "general" false,
        OutEvent.message_history (historyDicts stBase "general") "Bob"])
  ∧ alistGet "u1" (alistSet "u1" "general" stBase.user_room_map)
      = alistGet "u1" stBase.user_room_map :=
  ⟨(C5_amended_rejoin stBase sessBob "u1" "Bob" "general" resolvedBase).1,
   (C5_amended_rejoin stBase sessBob "u1" "Bob" "general" resolvedBase).2 "u1"⟩

/-! ## Typing-indicator lemmas -/

/-- `handle_start_typing` on a resolved connection: it inserts the user into
the room's typing dict and emits the `typing_status` broadcast
unconditionally — there is no membership test before the emission. -/
theorem handle_start_typing_resolved
    (st : ChatState) (sess : Session) (uid uname room : String)
    (h : Resolved st sess uid uname room) :
    handle_start_typing st sess =
      ({ st with typing_users_in_rooms :=
          (alistSet room (alistSet uid (some uname) ((alistGet room st.typing_users_in_rooms).getD []))
            st.typing_users_in_rooms) },
       [OutEvent.typing_status uid (some uname) true room false]) := by
  simp [handle_start_typing, sessionRoom, h.huid, h.hname, h.hroom, truthy,
    isEmpty_false_of_ne h.huid_ne, isEmpty_false_of_ne h.hroom_ne]

/-- `handle_message` never touches `typing_users_in_rooms`, whatever its
input and outcome. -/
theorem handle_message_typing_unchanged
    (st : ChatState) (sess : Session) (dc : Option String) (ok : Bool) (nid now : Nat) :
    (handle_message st sess dc ok nid now).1.typing_users_in_rooms
      = st.typing_users_in_rooms := by
  simp only [handle_message]
  split
  · rfl
  · split
    · rfl
    · split <;> rfl

/-- `handle_stop_typing` removes the user's entry from the bound room's
typing dict (or leaves it absent). -/
theorem handle_stop_typing_clears
    (st : ChatState) (sess : Session) (uid room : String)
    (hu : sess.user_id = some uid) (hu_ne : uid ≠ "")
    (hroom : alistGet uid st.user_room_map = some room) (hroom_ne : room ≠ "") :
    alistGet uid ((alistGet room
        (handle_stop_typing st sess).1.typing_users_in_rooms).getD []) = none := by
  have hred : (handle_stop_typing st sess).1.typing_users_in_rooms =
      (match alistGet room st.typing_users_in_rooms with
       | some m =>
         if (alistGet uid m).isSome then
           alistSet room (alistRemove uid m) st.typing_users_in_rooms
         else st.typing_users_in_rooms
       | none => st.typing_users_in_rooms) := by
    cases hn : sess.user_name <;>
      simp [handle_stop_typing, sessionRoom, hu, hn, hroom, truthy,
        isEmpty_false_of_ne hu_ne, isEmpty_false_of_ne hroom_ne]
  rw [hred]
  rcases hm : alistGet room st.typing_users_in_rooms with _ | m
  · simp [hm, alistGet]
  · rcases hin : alistGet uid m with _ | v
    · simp [hm, hin]
    · simp [hin, alistGet_set_self, alistGet_remove_self]

/-- `handle_disconnect` removes the user's entry from the bound room's
typing dict (or leaves it absent). -/
theorem handle_disconnect_clears
    (st : ChatState) (sess : Session) (uid room : String)
    (hu : sess.user_id = some uid)
    (hroom : alistGet uid st.user_room_map = some room) :
    alistGet uid ((alistGet room
        (handle_disconnect st sess).1.typing_users_in_rooms).getD []) = none := by
  unfold handle_disconnect
  rw [hu]
  simp only [hroom]
  rcases hm : alistGet room st.typing_users_in_rooms with _ | m
  · simp [hm, alistGet]
  · rcases hin : alistGet uid m with _ | v
    · simp [hm, hin]
    · simp [hm, hin, alistGet_set_self, alistGet_remove_self]

/-! ## Claim C6 -/

/-- C6, counterexample: two consecutive `start_typing` events from the same
user with no intervening stop emit TWO `typing_status{is_typing:true}`
broadcasts (one per call), refuting "exactly one ... the broadcast fires
only on the 0→1 transition". -/
theorem C6_double_start_double_broadcast :
    (handle_start_typing stBase sessBob).2
      = [OutEvent.typing_status "u1" (some "Bob") true "general" false]
  ∧ (handle_start_typing (handle_start_typing stBase sessBob).1 sessBob).2
      = [OutEvent.typing_status "u1" (some "Bob") true "general" false] :=
  ⟨by decide, by decide⟩

/-- C6 (amended): every `start_typing` event on a resolved connection emits
one `typing_status{is_typing:true}` broadcast (excluding the sender),
regardless of whether the user is already in the room's typing set — the
dict insertion is idempotent, but the broadcast is not edge-triggered, so
two consecutive calls yield one broadcast each. -/
theorem C6_amended_start_typing_rebroadcasts
    (st : ChatState) (sess : Session) (uid uname room : String)
    (h : Resolved st sess uid uname room) :
    handle_start_typing st sess =
      ({ st with typing_users_in_rooms :=
          (alistSet room (alistSet uid (some uname) ((alistGet room st.typing_users_in_rooms).getD []))
            st.typing_users_in_rooms) },
       [OutEvent.typing_status uid (some uname) true room false])
  ∧ alistGet uid (alistSet uid (some uname) ((alistGet room st.typing_users_in_rooms).getD []))
      = some (some uname)
  ∧ (handle_start_typing (handle_start_typing st sess).1 sess).2
      = [OutEvent.typing_status uid (some uname) true room false] := by
  have h1 := handle_start_typing_resolved st sess uid uname room h
  refine ⟨h1, alistGet_set_self uid (some uname) _, ?_⟩
  rw [h1]
  have h' : Resolved
      ({ st with typing_users_in_rooms :=
          (alistSet room (alistSet uid (some uname) ((alistGet room st.typing_users_in_rooms).getD []))
            st.typing_users_in_rooms) }) sess uid uname room :=
    ⟨h.huid, h.huid_ne, h.hname, h.hname_ne, h.hroom, h.hroom_ne⟩
  rw [handle_start_typing_resolved _ sess uid uname room h']

/-- C6 witness: the amended behaviour at the concrete base state. -/
theorem C6_amended_start_typing_rebroadcasts_witness :
    handle_start_typing stBase sessBob =
      ({ stBase with typing_users_in_rooms :=
          (alistSet "general"
            (alistSet "u1" (some "Bob") ((alistGet "general" stBase.typing_users_in_rooms).getD []))
            stBase.typing_users_in_rooms) },
       [OutEvent.typing_status "u1" (some "Bob") true "general" false])
  ∧ (handle_start_typing (handle_start_typing stBase sessBob).1 sessBob).2
      = [OutEvent.typing_status "u1" (some "Bob") true "general" false] :=
  ⟨(C6_amended_start_typing_rebroadcasts stBase sessBob "u1" "Bob" "general" resolvedBase).1,
   (C6_amended_start_typing_rebroadcasts stBase sessBob "u1" "Bob" "general" resolvedBase).2.2⟩

/-! ## Claim C7 -/

/-- C7, counterexample: after a successful send (the message is persisted),
the sender's typing entry for the room is STILL present, refuting "every
successful send_message removes the sender's entry from that room's typing
set". -/
theorem C7_send_leaves_typing_entry :
    (handle_message stTyping sessBob (some "hi") true 1 0).1.messages ≠ []
  ∧ alistGet "u1" ((alistGet "general"
      (handle_message stTyping sessBob (some "hi") true 1 0).1.typing_users_in_rooms).getD [])
      = some (some "Bob") :=
  ⟨by decide, by decide⟩

/-- C7 (amended): `handle_message` never modifies the typing state — a
successful send does NOT clear the sender's typing entry; a typing entry is
removed only by `stop_typing` or by disconnect. -/
theorem C7_amended_send_does_not_clear_typing
    (st : ChatState) (sess : Session) (uid room : String)
    (hu : sess.user_id = some uid) (hu_ne : uid ≠ "")
    (hroom : alistGet uid st.user_room_map = some room) (hroom_ne : room ≠ "") :
    (∀ (dc : Option String) (ok : Bool) (nid now : Nat),
      (handle_message st sess dc ok nid now).1.typing_users_in_rooms
        = st.typing_users_in_rooms)
  ∧ alistGet uid ((alistGet room
      (handle_stop_typing st sess).1.typing_users_in_rooms).getD []) = none
  ∧ alistGet uid ((alistGet room
      (handle_disconnect st sess).1.typing_users_in_rooms).getD []) = none :=
  ⟨fun dc ok nid now => handle_message_typing_unchanged st sess dc ok nid now,
   handle_stop_typing_clears st sess uid room hu hu_ne hroom hroom_ne,
   handle_disconnect_clears st sess uid room hu hroom⟩

/-- C7 witness: at the concrete state where Bob is typing in `general`. -/
theorem C7_amended_send_does_not_clear_typing_witness :
    (handle_message stTyping sessBob (some "hi") true 1 0).1.typing_users_in_rooms
      = stTyping.typing_users_in_rooms
  ∧ alistGet "u1" ((alistGet "general"
      (handle_stop_typing stTyping sessBob).1.typing_users_in_rooms).getD []) = none
  ∧ alistGet "u1" ((alistGet "general"
      (handle_disconnect stTyping sessBob).1.typing_users_in_rooms).getD []) = none :=
  ⟨(C7_amended_send_does_not_clear_typing stTyping sessBob "u1" "general"
      rfl (by decide) (by decide) (by decide)).1 (some "hi") true 1 0,
   (C7_amended_send_does_not_clear_typing stTyping sessBob "u1" "general"
      rfl (by decide) (by decide) (by decide)).2.1,
   (C7_amended_send_does_not_clear_typing stTyping sessBob "u1" "general"
      rfl (by decide) (by decide) (by decide)).2.2⟩

/-! ## Claim C8 -/

/-- C8: history loading fetches the room's rows in descending timestamp
order, keeps at most 50 and reverses them, so the result is ascending by
creation time, has at most 50 entries, every dropped row is no newer than
every kept row, and an empty room yields the empty list.  `on_join` emits at
most one `message_history` event, and that event (emitted with no `room`
target) reaches the joining connection only. -/
theorem C8_history_window (msgs : List MessageRow) (room : String) :
    load_recent msgs room =
      ((List.insertionSort tsDesc (msgs.filter (fun m => m.room_name = room))).take 50).reverse
  ∧ (load_recent msgs room).length ≤ 50
  ∧ List.Pairwise (fun a b => a.timestamp ≤ b.timestamp) (load_recent msgs room)
  ∧ (msgs.filter (fun m => m.room_name = room) = [] → load_recent msgs room = [])
  ∧ (∀ a ∈ (List.insertionSort tsDesc (msgs.filter (fun m => m.room_name = room))).drop 50,
      ∀ b ∈ load_recent msgs room, a.timestamp ≤ b.timestamp)
  ∧ (∀ (st : ChatState) (sess : Session) (dr : Option String),
      (on_join st sess dr).2.countP isHistoryEvent ≤ 1) := by
  refine ⟨rfl, ?_, ?_, ?_, ?_, ?_⟩
  · simp only [load_recent, List.length_reverse, List.length_take]
    exact min_le_left _ _
  · unfold load_recent
    refine List.pairwise_reverse.mpr ?_
    have hs : List.Sorted tsDesc
        (List.insertionSort tsDesc (msgs.filter (fun m => m.room_name = room))) :=
      List.sorted_insertionSort tsDesc _
    exact List.Pairwise.sublist (List.take_sublist 50 _) hs
  · intro h
    simp [load_recent, h, List.insertionSort]
  · intro a ha b hb
    have hs : List.Pairwise tsDesc
        (List.insertionSort tsDesc (msgs.filter (fun m => m.room_name = room))) :=
      List.sorted_insertionSort tsDesc _
    rw [← List.take_append_drop 50
      (List.insertionSort tsDesc (msgs.filter (fun m => m.room_name = room)))] at hs
    rw [List.pairwise_append] at hs
    obtain ⟨-, -, hcross⟩ := hs
    have hb' : b ∈ (List.insertionSort tsDesc
        (msgs.filter (fun m => m.room_name = room))).take 50 := by
      simpa [load_recent] using hb
    exact hcross b hb' a ha
  · intro st2 sess2 dr2
    simp only [on_join]
    split
    · simp [isHistoryEvent]
    · split
      · split <;>
          simp [isHistoryEvent, List.countP_append, List.countP_cons, List.countP_nil]
      · simp [isHistoryEvent, List.countP_append, List.countP_cons, List.countP_nil]

/-- C8 witness: the window properties at concrete inputs — an empty room
gives the empty history, and a two-message room comes back ascending. -/
theorem C8_history_window_witness :
    load_recent ([] : List MessageRow) "general" = []
  ∧ List.Pairwise (fun a b => a.timestamp ≤ b.timestamp) (load_recent msgsTwo "general")
  ∧ (load_recent msgsTwo "general").length ≤ 50 :=
  ⟨(C8_history_window [] "general").2.2.2.1 rfl,
   (C8_history_window msgsTwo "general").2.2.1,
   (C8_history_window msgsTwo "general").2.1⟩

/-! ## Claim C9 -/

/-- C9: the `timestamp` field of every delivered payload (`new_message`
broadcasts and `message_history` entries both go through
`Message.to_dict`) is the `%H:%M:%S` rendering of the stored UTC datetime:
a time of day only.  Shifting the stored datetime by any whole number of
days leaves the payload unchanged, and the rendered field is always the
8-character `HH:MM:SS` form, so the calendar date is not recoverable from
(and not included in) the payload, even though the persisted row carries
the full datetime. -/
theorem C9_payload_time_of_day_only (m : MessageRow) (u : UserRow) (d : Nat) :
    (m.to_dict u).timestamp = formatHMS m.timestamp
  ∧ formatHMS (m.timestamp + 86400 * d) = formatHMS m.timestamp
  ∧ (formatHMS m.timestamp).length = 8
  ∧ (∀ (st : ChatState) (room : String),
      (historyDicts st room).map MsgDict.timestamp =
        (load_recent st.messages room).map (fun r => formatHMS r.timestamp)) := by
  refine ⟨rfl, ?_, ?_, ?_⟩
  · have h1 : (m.timestamp + 86400 * d) / 3600 % 24 = m.timestamp / 3600 % 24 := by omega
    have h2 : (m.timestamp + 86400 * d) / 60 % 60 = m.timestamp / 60 % 60 := by omega
    have h3 : (m.timestamp + 86400 * d) % 60 = m.timestamp % 60 := by omega
    simp [formatHMS, h1, h2, h3]
  · have hp : ∀ n, n < 100 → (pad2 n).length = 2 := by decide
    have l1 : (pad2 (m.timestamp / 3600 % 24)).length = 2 :=
      hp _ (lt_trans (Nat.mod_lt _ (by norm_num)) (by norm_num))
    have l2 : (pad2 (m.timestamp / 60 % 60)).length = 2 :=
      hp _ (lt_trans (Nat.mod_lt _ (by norm_num)) (by norm_num))
    have l3 : (pad2 (m.timestamp % 60)).length = 2 :=
      hp _ (lt_trans (Nat.mod_lt _ (by norm_num)) (by norm_num))
    have lc : (":" : String).length = 1 := rfl
    simp [formatHMS, String.length_append, l1, l2, l3, lc]
  · intro st room
    simp only [historyDicts, List.map_map]
    rfl

/-! ## Claim C10 -/

/-- C10: room bindings and typing entries are keyed by `user_id` (session
identity), never by connection id.  Every handler's result is literally
independent of the connection id; any connection of a user resolves the
user's single binding; a join on one connection overwrites that single
binding as observed from every other connection of the same user; and a
disconnect on any one connection removes the user's binding and the user's
typing entry entirely. -/
theorem C10_state_keyed_by_user_id
    (st : ChatState) (c1 c2 : String) (uido uno : Option String)
    (u n B : String) (dr dc : Option String) (ok : Bool) (nid now : Nat)
    (hu : u ≠ "") (hn : n ≠ "") (hB : B ≠ "") :
    (on_join st ⟨c1, uido, uno⟩ dr = on_join st ⟨c2, uido, uno⟩ dr
      ∧ handle_disconnect st ⟨c1, uido, uno⟩ = handle_disconnect st ⟨c2, uido, uno⟩
      ∧ handle_message st ⟨c1, uido, uno⟩ dc ok nid now
          = handle_message st ⟨c2, uido, uno⟩ dc ok nid now
      ∧ handle_start_typing st ⟨c1, uido, uno⟩ = handle_start_typing st ⟨c2, uido, uno⟩
      ∧ handle_stop_typing st ⟨c1, uido, uno⟩ = handle_stop_typing st ⟨c2, uido, uno⟩)
  ∧ (∀ (c' : String) (un' : Option String),
      sessionRoom st ⟨c', some u, un'⟩ = alistGet u st.user_room_map)
  ∧ (∀ c' : String,
      sessionRoom (on_join st ⟨c1, some u, some n⟩ (some B)).1 ⟨c', some u, uno⟩ = some B)
  ∧ sessionRoom (handle_disconnect st ⟨c1, some u, some n⟩).1 ⟨c2, some u, uno⟩ = none
  ∧ (∀ room : String, alistGet u st.user_room_map = some room →
      alistGet u ((alistGet room
        (handle_disconnect st ⟨c1, some u, some n⟩).1.typing_users_in_rooms).getD []) = none) := by
  refine ⟨⟨rfl, rfl, rfl, rfl, rfl⟩, fun c' un' => rfl, ?_, ?_, ?_⟩
  · intro c'
    simp [on_join, truthy, isEmpty_false_of_ne hu, isEmpty_false_of_ne hn,
      isEmpty_false_of_ne hB, sessionRoom, alistGet_set_self]
  · rcases hm : alistGet u st.user_room_map with _ | room
    · simp [handle_disconnect, sessionRoom, hm]
    · simp only [handle_disconnect, sessionRoom, hm]
      split <;> simp [alistGet_remove_self]
  · intro room hroom
    exact handle_disconnect_clears st ⟨c1, some u, some n⟩ u room rfl hroom

/-- C10 witness: the keying behaviour at the concrete typing state. -/
theorem C10_state_keyed_by_user_id_witness :
    sessionRoom (on_join stTyping ⟨"c1", some "u1", some "Bob"⟩ (some "lobby")).1
      ⟨"c2", some "u1", some "Bob"⟩ = some "lobby"
  ∧ sessionRoom (handle_disconnect stTyping ⟨"c1", some "u1", some "Bob"⟩).1
      ⟨"c2", some "u1", some "Bob"⟩ = none
  ∧ alistGet "u1" ((alistGet "general"
      (handle_disconnect stTyping ⟨"c1", some "u1", some "Bob"⟩).1.typing_users_in_rooms).getD [])
      = none :=
  ⟨(C10_state_keyed_by_user_id stTyping "c1" "c2" (some "u1") (some "Bob")
      "u1" "Bob" "lobby" none none true 1 0 (by decide) (by decide) (by decide)).2.2.1 "c2",
   (C10_state_keyed_by_user_id stTyping "c1" "c2" (some "u1") (some "Bob")
      "u1" "Bob" "lobby" none none true 1 0 (by decide) (by decide) (by decide)).2.2.2.1,
   (C10_state_keyed_by_user_id stTyping "c1" "c2" (some "u1") (some "Bob")
      "u1" "Bob" "lobby" none none true 1 0 (by decide) (by decide) (by decide)).2.2.2.2
      "general" (by decide)⟩

end WebChat
